import Mathlib

/-!
Verification development for the football-manager domain of this repository
(src/projekt/src: player.py, team.py, league.py, manager.py).

Modelling conventions:
* Python integers are `Int`; Python strings are `String`; Python floats are
  modelled as `ℚ` (the arithmetic here is exact decimal arithmetic).
* Python object identity: every `Player` carries a `pid : Nat` field that
  models the object identity used by the default `__eq__`; two distinct
  Python objects have distinct `pid`s, so structural equality on the
  embedded record coincides with Python identity equality whenever pids
  are allocated freshly.  `pid` corresponds to no source attribute and is
  ignored by every method.
* A fallible mutating method of the source raises an exception; any
  mutation performed before the raise persists on the object.  Such a
  method is embedded as a function returning `(post-state, Option String)`:
  the first component is the state of the object after the call (also when
  it raised), the second is `some msg` exactly when the call raised.
* Methods that raise before mutating anything therefore return the input
  state together with the error.
-/

/-- Embeds `Position` of src/projekt/src/player.py. -/
inductive Position where
  | GOALKEEPER
  | DEFENDER
  | MIDFIELDER
  | FORWARD
deriving DecidableEq, Repr

/-- The `.name` attribute of a `Position` enum member (used by persistence). -/
def Position.pyName : Position → String
  | .GOALKEEPER => "GOALKEEPER"
  | .DEFENDER => "DEFENDER"
  | .MIDFIELDER => "MIDFIELDER"
  | .FORWARD => "FORWARD"

/-- `Position[name]` lookup used by `Manager.load_team_from_file`; raises
`KeyError` on an unknown name. -/
def Position.ofPyName : String → Except String Position
  | "GOALKEEPER" => .ok .GOALKEEPER
  | "DEFENDER" => .ok .DEFENDER
  | "MIDFIELDER" => .ok .MIDFIELDER
  | "FORWARD" => .ok .FORWARD
  | s => .error ("KeyError: " ++ s)

/-- Embeds the attribute state of class `Player` (src/projekt/src/player.py).
`pid` models Python object identity (see module comment); all other fields
are the attributes assigned in `Player.__init__`. -/
structure Player where
  pid : Nat
  name : String
  position : Position
  age : Int
  overall_rating : Int
  stamina : Int
  injured : Bool
  is_captain : Bool
  goals : Int
  assists : Int
  matches_played : Int
  yellow_cards : Int
  red_cards : Int
  suspended : Bool
  contract_years_left : Int
  morale : Int
  retired : Bool
  on_loan : Bool
  loaned_to : Option String
  loan_duration : Int
deriving DecidableEq, Repr

/-- Embeds `Player.__init__`: validates rating then age, otherwise builds the
initial state.  `pid` is the freshly allocated object identity. -/
def mkPlayer (pid : Nat) (name : String) (position : Position)
    (age : Int) (overall_rating : Int) : Except String Player :=
  if overall_rating < 0 ∨ overall_rating > 100 then
    .error "Overall rating must be between 0 and 100."
  else if age < 15 ∨ age > 50 then
    .error "Invalid age for player."
  else
    .ok {
      pid := pid
      name := name
      position := position
      age := age
      overall_rating := overall_rating
      stamina := 100
      injured := false
      is_captain := false
      goals := 0
      assists := 0
      matches_played := 0
      yellow_cards := 0
      red_cards := 0
      suspended := false
      contract_years_left := 3
      morale := 70
      retired := false
      on_loan := false
      loaned_to := none
      loan_duration := 0 }

/-- Embeds `Player.train`. -/
def Player.train (p : Player) : Player :=
  if ¬ p.injured then
    { p with overall_rating := min 100 (p.overall_rating + 1),
             stamina := max 0 (p.stamina - 10) }
  else p

/-- Embeds `Player.rest`. -/
def Player.rest (p : Player) : Player :=
  { p with stamina := min 100 (p.stamina + 20) }

/-- Embeds `Player.injure`. -/
def Player.injure (p : Player) : Player :=
  { p with injured := true }

/-- Embeds `Player.is_exhausted`. -/
def Player.is_exhausted (p : Player) : Bool :=
  p.stamina < 30

/-- Embeds `Player.recover_from_injury` (raises when not injured). -/
def Player.recover_from_injury (p : Player) : Player × Option String :=
  if ¬ p.injured then (p, some "Player is not injured.")
  else ({ p with injured := false }, none)

/-- Embeds `Player.age_up`. -/
def Player.age_up (p : Player) : Player :=
  let p1 := { p with age := p.age + 1 }
  if p1.age > 30 then
    { p1 with overall_rating := max 0 (p1.overall_rating - 1) }
  else p1

/-- Embeds `Player.change_position`.  The `isinstance` check of the source
always succeeds in this typed embedding, so the method never raises here. -/
def Player.change_position (p : Player) (new_position : Position) : Player :=
  { p with position := new_position }

/-- Embeds `Player.promote_to_captain`. -/
def Player.promote_to_captain (p : Player) : Player :=
  { p with is_captain := true }

/-- Embeds `Player.demote_from_captain`. -/
def Player.demote_from_captain (p : Player) : Player :=
  { p with is_captain := false }

/-- Embeds `Player.record_match`. -/
def Player.record_match (p : Player) (goals assists : Int) :
    Player × Option String :=
  if goals < 0 ∨ assists < 0 then
    (p, some "Goals and assists cannot be negative.")
  else
    ({ p with goals := p.goals + goals,
              assists := p.assists + assists,
              matches_played := p.matches_played + 1 }, none)

/-- Embeds `Player.receive_card`. -/
def Player.receive_card (p : Player) (card_type : String) :
    Player × Option String :=
  if card_type = "yellow" then
    let p1 := { p with yellow_cards := p.yellow_cards + 1 }
    if p1.yellow_cards = 2 then
      ({ p1 with red_cards := p1.red_cards + 1,
                 yellow_cards := 0,
                 suspended := true }, none)
    else (p1, none)
  else if card_type = "red" then
    ({ p with red_cards := p.red_cards + 1, suspended := true }, none)
  else
    (p, some "Invalid card type.")

/-- Embeds `Player.reset_cards`. -/
def Player.reset_cards (p : Player) : Player :=
  { p with yellow_cards := 0, red_cards := 0, suspended := false }

/-- Embeds `Player.renew_contract`. -/
def Player.renew_contract (p : Player) (years : Int) :
    Player × Option String :=
  if years ≤ 0 then (p, some "Contract must be for at least 1 year.")
  else ({ p with contract_years_left := years }, none)

/-- Embeds `Player.is_contract_expiring`. -/
def Player.is_contract_expiring (p : Player) : Bool :=
  p.contract_years_left ≤ 1

/-- Embeds `Player.decrement_contract`. -/
def Player.decrement_contract (p : Player) : Player :=
  if p.contract_years_left > 0 then
    { p with contract_years_left := p.contract_years_left - 1 }
  else p

/-- Embeds `Player.change_morale`.  The `isinstance(amount, int)` check of
the source always succeeds in this typed embedding. -/
def Player.change_morale (p : Player) (amount : Int) : Player :=
  { p with morale := max 0 (min 100 (p.morale + amount)) }

/-- Embeds `Player.get_morale_status`. -/
def Player.get_morale_status (p : Player) : String :=
  if p.morale ≥ 80 then "Excellent"
  else if p.morale ≥ 60 then "Good"
  else if p.morale ≥ 40 then "Average"
  else if p.morale ≥ 20 then "Low"
  else "Very Low"

/-- Embeds `Player.check_retirement`. -/
def Player.check_retirement (p : Player) : Player :=
  if p.age ≥ 40 then { p with retired := true } else p

/-- Embeds `Player.loan_to`. -/
def Player.loan_to (p : Player) (club_name : String) (duration : Int) :
    Player × Option String :=
  if p.on_loan then (p, some "Player is already on loan.")
  else if duration ≤ 0 then (p, some "Duration must be positive.")
  else ({ p with on_loan := true, loaned_to := some club_name,
                 loan_duration := duration }, none)

/-- Embeds `Player.return_from_loan`. -/
def Player.return_from_loan (p : Player) : Player × Option String :=
  if ¬ p.on_loan then (p, some "Player is not on loan.")
  else ({ p with on_loan := false, loaned_to := none, loan_duration := 0 },
        none)

/-- Embeds `Player.reduce_loan_duration` (the inner `return_from_loan` call
cannot raise there, since `on_loan` is true). -/
def Player.reduce_loan_duration (p : Player) : Player :=
  if p.on_loan then
    let p1 := { p with loan_duration := p.loan_duration - 1 }
    if p1.loan_duration ≤ 0 then (p1.return_from_loan).1 else p1
  else p

/-- Rounding to 2 decimal places, as Python `round(value, 2)`: ties round
to even (banker's rounding). -/
def round2 (q : ℚ) : ℚ :=
  let s := q * 100
  let f : Int := ⌊s⌋
  let n : Int :=
    if s - f < 1/2 then f
    else if s - f > 1/2 then f + 1
    else if f % 2 = 0 then f else f + 1
  (n : ℚ) / 100

/-- Embeds `Player.get_market_value`; float arithmetic modelled exactly
over `ℚ`. -/
def Player.get_market_value (p : Player) : ℚ :=
  let base : ℚ := (p.overall_rating : ℚ) * (4/10)
  let age_bonus : ℚ := ((max 0 (30 - p.age) : Int) : ℚ) * (3/10)
  let goal_bonus : ℚ := (p.goals : ℚ) * (1/10)
  round2 (base + age_bonus + goal_bonus)

/-- Embeds the attribute state of class `Team` (src/projekt/src/team.py).
`points` is NOT assigned by `Team.__init__`; it is the dynamically added
attribute that `League.get_top_team` and `League.get_bottom_team` read
(spec section 9 flags it); likewise `max_players`, which `Manager.buy_player`
reads and which only external code (the tests) assigns.  For both, `none`
models the attribute being absent, in which case reading it raises
`AttributeError`. -/
structure Team where
  name : String
  players : List Player
  formation : String
  starting_eleven : List Player
  bench : List Player
  goals_scored : Int
  goals_conceded : Int
  wins : Int
  draws : Int
  losses : Int
  points : Option Int
  max_players : Option Int
deriving DecidableEq, Repr

/-- Embeds `Team.__init__`.  Neither `points` nor `max_players` is assigned
there: both model dynamically added attributes that other code reads
(`League` ranking reads `points`; `Manager.buy_player` reads `max_players`,
which the repository's tests assign externally before buying). -/
def mkTeam (name : String) : Team :=
  { name := name
    players := []
    formation := "4-4-2"
    starting_eleven := []
    bench := []
    goals_scored := 0
    goals_conceded := 0
    wins := 0
    draws := 0
    losses := 0
    points := none
    max_players := none }

/-- Embeds `Team.add_player`. -/
def Team.add_player (t : Team) (player : Player) : Team × Option String :=
  if player ∈ t.players then (t, some "Player already in team.")
  else if player.retired then (t, some "Cannot add retired player.")
  else ({ t with players := t.players ++ [player] }, none)

/-- Embeds `Team.remove_player` (`list.remove` drops the first occurrence). -/
def Team.remove_player (t : Team) (player : Player) : Team × Option String :=
  if player ∉ t.players then (t, some "Player not found.")
  else ({ t with players := t.players.erase player }, none)

/-- Embeds `Team.set_formation`. -/
def Team.set_formation (t : Team) (formation : String) : Team × Option String :=
  if formation ∈ ["4-4-2", "4-3-3", "3-5-2"] then
    ({ t with formation := formation }, none)
  else (t, some "Unsupported formation.")

/-- Embeds `Team.assign_starting_eleven`: length check, then a left-to-right
membership scan raising at the first player not in the roster, then wholesale
replacement of `starting_eleven`. -/
def Team.assign_starting_eleven (t : Team) (players : List Player) :
    Team × Option String :=
  if players.length ≠ 11 then
    (t, some "Starting eleven must contain 11 players.")
  else
    match players.find? (fun p => decide (p ∉ t.players)) with
    | some p => (t, some (p.name ++ " not in team."))
    | none => ({ t with starting_eleven := players }, none)

/-- Embeds `Team.update_match_result`. -/
def Team.update_match_result (t : Team) (goals_for goals_against : Int) : Team :=
  let t1 := { t with goals_scored := t.goals_scored + goals_for,
                     goals_conceded := t.goals_conceded + goals_against }
  if goals_for > goals_against then { t1 with wins := t1.wins + 1 }
  else if goals_for < goals_against then { t1 with losses := t1.losses + 1 }
  else { t1 with draws := t1.draws + 1 }

/-- Embeds `Team.get_average_rating` (0 for an empty roster). -/
def Team.get_average_rating (t : Team) : ℚ :=
  if t.players = [] then 0
  else ((t.players.map Player.overall_rating).sum : ℚ) / (t.players.length : ℚ)

/-- Embeds `Team.get_injured_players`. -/
def Team.get_injured_players (t : Team) : List Player :=
  t.players.filter (fun p => p.injured)

/-- Embeds `Team.get_players_by_position`. -/
def Team.get_players_by_position (t : Team) (position : Position) : List Player :=
  t.players.filter (fun p => p.position = position)

/-- The linear scan shared by the four best-of-roster queries of `Team`:
`best = players[0]; for p in players[1:]: if f p > f best: best = p`. -/
def bestScan (f : Player → Int) (b : Player) (l : List Player) : Player :=
  l.foldl (fun best p => if f p > f best then p else best) b

/-- Embeds `Team.get_best_player`. -/
def Team.get_best_player (t : Team) : Option Player :=
  match t.players with
  | [] => none
  | b :: rest => some (bestScan Player.overall_rating b rest)

/-- Embeds `Team.swap_players`: membership check on `player_out`, then
`remove_player(player_out)`, then `add_player(player_in)`.  When the inner
`add_player` raises, the removal has already happened and persists. -/
def Team.swap_players (t : Team) (player_out player_in : Player) :
    Team × Option String :=
  if player_out ∉ t.players then
    (t, some "Player to remove is not in the team.")
  else
    let r1 := t.remove_player player_out
    match r1.2 with
    | some e => (r1.1, some e)
    | none =>
      let r2 := r1.1.add_player player_in
      (r2.1, r2.2)

/-- Embeds `Team.get_average_age` (0 for an empty roster). -/
def Team.get_average_age (t : Team) : ℚ :=
  if t.players = [] then 0
  else ((t.players.map Player.age).sum : ℚ) / (t.players.length : ℚ)

/-- Embeds `Team.get_top_scorer`. -/
def Team.get_top_scorer (t : Team) : Option Player :=
  match t.players with
  | [] => none
  | b :: rest => some (bestScan Player.goals b rest)

/-- Embeds `Team.get_top_assistant`. -/
def Team.get_top_assistant (t : Team) : Option Player :=
  match t.players with
  | [] => none
  | b :: rest => some (bestScan Player.assists b rest)

/-- Embeds `Team.get_most_active_player`. -/
def Team.get_most_active_player (t : Team) : Option Player :=
  match t.players with
  | [] => none
  | b :: rest => some (bestScan Player.matches_played b rest)

/-- Embeds `Team.get_loaned_players`. -/
def Team.get_loaned_players (t : Team) : List Player :=
  t.players.filter (fun p => p.on_loan)

/-- Embeds the attribute state of class `League` (src/projekt/src/league.py). -/
structure League where
  name : String
  teams : List Team
deriving DecidableEq, Repr

/-- Embeds `League.__init__`. -/
def mkLeague (name : String) : League :=
  { name := name, teams := [] }

/-- Embeds `League.add_team`.  The `isinstance(team, Team)` check of the
source always succeeds in this typed embedding, so only the duplicate check
can raise here. -/
def League.add_team (lg : League) (team : Team) : League × Option String :=
  if team ∈ lg.teams then (lg, some "Team already in league.")
  else ({ lg with teams := lg.teams ++ [team] }, none)

/-- Embeds `League.remove_team`. -/
def League.remove_team (lg : League) (team : Team) : League × Option String :=
  if team ∉ lg.teams then (lg, some "Team not found in league.")
  else ({ lg with teams := lg.teams.erase team }, none)

/-- Embeds `League.get_team_by_name`. -/
def League.get_team_by_name (lg : League) (name : String) : Option Team :=
  lg.teams.find? (fun t => t.name = name)

/-- Reading `team.points`: raises `AttributeError` when the attribute was
never assigned (class `Team` does not define it). -/
def Team.pointsAttr (t : Team) : Except String Int :=
  match t.points with
  | some n => .ok n
  | none => .error "AttributeError: Team object has no attribute points"

/-- Goal difference of a team. -/
def Team.gd (t : Team) : Int :=
  t.goals_scored - t.goals_conceded

/-- The loop of `League.get_top_team`: keep the running top, replacing it on
strictly more points, or on equal points and strictly larger goal
difference. -/
def topTeamScan (top : Team) : List Team → Except String Team
  | [] => .ok top
  | t :: ts => do
    let tp ← t.pointsAttr
    let topp ← top.pointsAttr
    if tp > topp then topTeamScan t ts
    else if tp = topp then
      if t.gd > top.gd then topTeamScan t ts else topTeamScan top ts
    else topTeamScan top ts

/-- Embeds `League.get_top_team` (`ok none` for an empty league; an
`AttributeError` from a missing `points` attribute is the `error` case). -/
def League.get_top_team (lg : League) : Except String (Option Team) :=
  match lg.teams with
  | [] => .ok none
  | t0 :: rest => (topTeamScan t0 rest).map some

/-- The loop of `League.get_bottom_team`: keep the running bottom, replacing
it on strictly fewer points, or on equal points and strictly smaller goal
difference. -/
def bottomTeamScan (bottom : Team) : List Team → Except String Team
  | [] => .ok bottom
  | t :: ts => do
    let tp ← t.pointsAttr
    let bp ← bottom.pointsAttr
    if tp < bp then bottomTeamScan t ts
    else if tp = bp then
      if t.gd < bottom.gd then bottomTeamScan t ts else bottomTeamScan bottom ts
    else bottomTeamScan bottom ts

/-- Embeds `League.get_bottom_team`. -/
def League.get_bottom_team (lg : League) : Except String (Option Team) :=
  match lg.teams with
  | [] => .ok none
  | t0 :: rest => (bottomTeamScan t0 rest).map some

/-- Embeds `League.has_team`. -/
def League.has_team (lg : League) (name : String) : Bool :=
  lg.teams.any (fun t => t.name = name)

/-- Embeds `League.replace_team` (`list.index` finds the first occurrence;
assignment replaces in place, preserving order). -/
def League.replace_team (lg : League) (old_team new_team : Team) :
    League × Option String :=
  if old_team ∉ lg.teams then (lg, some "Old team not in league.")
  else ({ lg with teams := lg.teams.set (lg.teams.indexOf old_team) new_team },
        none)

/-- Embeds the attribute state of class `Manager` (src/projekt/src/manager.py). -/
structure Manager where
  team : Team
  budget : Int
deriving DecidableEq, Repr

/-- Embeds `Manager.__init__`. -/
def mkManager (team : Team) : Manager :=
  { team := team, budget := 100 }

/-- One record of the `players` array of the JSON document written by
`Manager.save_team_to_file`. -/
structure SavedPlayer where
  name : String
  position : String
  age : Int
  rating : Int
  stamina : Int
  injured : Bool
deriving DecidableEq, Repr

/-- The JSON document written by `Manager.save_team_to_file`. -/
structure SavedTeam where
  team_name : String
  players : List SavedPlayer
deriving DecidableEq, Repr

/-- Embeds `Manager.save_team_to_file`: the document written to the file
(file I/O itself abstracted away). -/
def Manager.save_team_to_file (m : Manager) : SavedTeam :=
  { team_name := m.team.name
    players := m.team.players.map (fun p =>
      { name := p.name
        position := p.position.pyName
        age := p.age
        rating := p.overall_rating
        stamina := p.stamina
        injured := p.injured }) }

/-- The loop of `Manager.load_team_from_file`: construct each `Player` anew
(validating age and rating), overwrite its `stamina` and `injured`, and
`add_player` it.  `pid` numbers the freshly allocated player objects; an
exception aborts the whole load. -/
def loadPlayers (t : Team) (pid : Nat) : List SavedPlayer → Except String Team
  | [] => .ok t
  | sp :: rest => do
    let pos ← Position.ofPyName sp.position
    let pl ← mkPlayer pid sp.name pos sp.age sp.rating
    let pl := { pl with stamina := sp.stamina, injured := sp.injured }
    match t.add_player pl with
    | (t1, none) => loadPlayers t1 (pid + 1) rest
    | (_, some e) => .error e

/-- Embeds `Manager.load_team_from_file`. -/
def load_team_from_file (d : SavedTeam) : Except String Team :=
  loadPlayers (mkTeam d.team_name) 0 d.players

/-- Embeds `Manager.buy_player`: duplicate check, then the capacity check
reading `self.team.max_players` (an `AttributeError` when the attribute was
never assigned, since `Team.__init__` does not define it), then the budget
check, then `add_player` followed by the budget debit.  A raise from the
inner `add_player` happens before the debit, with the team state it left
behind (its checks precede its mutation). -/
def Manager.buy_player (m : Manager) (player : Player) (price : Int) :
    Manager × Option String :=
  if player ∈ m.team.players then (m, some "Player already in team.")
  else
    match m.team.max_players with
    | none =>
      (m, some "AttributeError: Team object has no attribute max_players")
    | some mx =>
      if (m.team.players.length : Int) ≥ mx then
        (m, some "Team has reached maximum size.")
      else if price > m.budget then
        (m, some "Insufficient budget to buy player.")
      else
        match m.team.add_player player with
        | (t1, some e) => ({ m with team := t1 }, some e)
        | (t1, none) => ({ team := t1, budget := m.budget - price }, none)

/-- Embeds `Manager.sell_player`. -/
def Manager.sell_player (m : Manager) (player : Player) (price : Int) :
    Manager × Option String :=
  if player ∉ m.team.players then (m, some "Player not found in team.")
  else
    let r := m.team.remove_player player
    ({ team := r.1, budget := m.budget + price }, r.2)

/-- One call to a method of `Player`, with its arguments.  Query methods are
included as well: they do not mutate the receiver. -/
inductive PCall where
  | train
  | rest
  | injure
  | is_exhausted
  | recover_from_injury
  | age_up
  | change_position (new_position : Position)
  | promote_to_captain
  | demote_from_captain
  | record_match (goals assists : Int)
  | receive_card (card_type : String)
  | reset_cards
  | renew_contract (years : Int)
  | is_contract_expiring
  | decrement_contract
  | change_morale (amount : Int)
  | get_morale_status
  | check_retirement
  | loan_to (club_name : String) (duration : Int)
  | return_from_loan
  | reduce_loan_duration
  | get_market_value
deriving DecidableEq, Repr

/-- The state transition of one `Player` method call: the state of the
receiver after the call, and the error message when the call raised. -/
def applyCall (c : PCall) (p : Player) : Player × Option String :=
  match c with
  | .train => (p.train, none)
  | .rest => (p.rest, none)
  | .injure => (p.injure, none)
  | .is_exhausted => (p, none)
  | .recover_from_injury => p.recover_from_injury
  | .age_up => (p.age_up, none)
  | .change_position pos => (p.change_position pos, none)
  | .promote_to_captain => (p.promote_to_captain, none)
  | .demote_from_captain => (p.demote_from_captain, none)
  | .record_match g a => p.record_match g a
  | .receive_card s => p.receive_card s
  | .reset_cards => (p.reset_cards, none)
  | .renew_contract y => p.renew_contract y
  | .is_contract_expiring => (p, none)
  | .decrement_contract => (p.decrement_contract, none)
  | .change_morale n => (p.change_morale n, none)
  | .get_morale_status => (p, none)
  | .check_retirement => (p.check_retirement, none)
  | .loan_to c d => p.loan_to c d
  | .return_from_loan => p.return_from_loan
  | .reduce_loan_duration => (p.reduce_loan_duration, none)
  | .get_market_value => (p, none)

/-- The state of a player after a finite sequence of method calls (errors
propagate no state change beyond what the failing method already did). -/
def runCalls (calls : List PCall) (p : Player) : Player :=
  calls.foldl (fun q c => (applyCall c q).1) p

/-- The clamping invariant of claim C6: stamina, morale and rating stay in
[0, 100]. -/
def PlayerInv (p : Player) : Prop :=
  0 ≤ p.stamina ∧ p.stamina ≤ 100 ∧ 0 ≤ p.morale ∧ p.morale ≤ 100 ∧
    0 ≤ p.overall_rating ∧ p.overall_rating ≤ 100

instance : DecidablePred PlayerInv := fun p => by
  unfold PlayerInv; infer_instance

lemma playerInv_applyCall (c : PCall) (p : Player) (h : PlayerInv p) :
    PlayerInv (applyCall c p).1 := by
  obtain ⟨h1, h2, h3, h4, h5, h6⟩ := h
  cases c <;>
    simp only [applyCall, Player.train, Player.rest, Player.injure,
      Player.recover_from_injury, Player.age_up, Player.change_position,
      Player.promote_to_captain, Player.demote_from_captain,
      Player.record_match, Player.receive_card, Player.reset_cards,
      Player.renew_contract, Player.decrement_contract, Player.change_morale,
      Player.check_retirement, Player.loan_to, Player.return_from_loan,
      Player.reduce_loan_duration, PlayerInv] <;>
    (try split_ifs) <;> (try simp_all) <;> omega

lemma playerInv_runCalls (calls : List PCall) (p : Player) (h : PlayerInv p) :
    PlayerInv (runCalls calls p) := by
  induction calls generalizing p with
  | nil => simpa [runCalls] using h
  | cons c cs ih =>
    have step := playerInv_applyCall c p h
    simpa [runCalls, List.foldl_cons] using ih _ step

lemma bestScan_cons (f : Player → Int) (b a : Player) (l : List Player) :
    bestScan f b (a :: l) = bestScan f (if f a > f b then a else b) l := by
  simp [bestScan]

/-- The linear scan returns an element maximizing `f`, and every element
strictly before it in the list has a strictly smaller value of `f` (so the
scan keeps the earliest maximizer). -/
lemma bestScan_spec (f : Player → Int) (b : Player) (l : List Player) :
    (∀ x ∈ b :: l, f x ≤ f (bestScan f b l)) ∧
      ∃ pre post, b :: l = pre ++ bestScan f b l :: post ∧
        ∀ x ∈ pre, f x < f (bestScan f b l) := by
  induction l generalizing b with
  | nil =>
    refine ⟨by simp [bestScan], [], [], by simp [bestScan], by simp⟩
  | cons a l ih =>
    rw [bestScan_cons]
    by_cases hab : f a > f b
    · rw [if_pos hab]
      obtain ⟨hmax, pre, post, hdec, hpre⟩ := ih a
      have hba : f b ≤ f (bestScan f a l) := le_of_lt
        (lt_of_lt_of_le hab (hmax a (by simp)))
      refine ⟨?_, b :: pre, post, by simpa using hdec, ?_⟩
      · intro x hx
        rcases List.mem_cons.mp hx with h | h
        · exact h ▸ hba
        · exact hmax x h
      · intro x hx
        rcases List.mem_cons.mp hx with h | h
        · exact h ▸ lt_of_lt_of_le hab (hmax a (by simp))
        · exact hpre x h
    · rw [if_neg hab]
      push_neg at hab
      obtain ⟨hmax, pre, post, hdec, hpre⟩ := ih b
      set r := bestScan f b l with hr
      have hax : f a ≤ f r :=
        le_trans hab (hmax b (by simp))
      refine ⟨?_, ?_⟩
      · intro x hx
        rcases List.mem_cons.mp hx with h | h
        · exact h ▸ hmax b (by simp)
        · rcases List.mem_cons.mp h with h2 | h2
          · exact h2 ▸ hax
          · exact hmax x (by simp [h2])
      · match pre, hdec with
        | [], hdec =>
          have hb : bestScan f b l = b := (List.cons.injEq _ _ _ _ ▸ hdec).1.symm
          exact ⟨[], a :: l, by simpa using hb.symm, by simp⟩
        | q :: pre2, hdec =>
          have h1 : q = b ∧ l = pre2 ++ bestScan f b l :: post := by
            have := hdec
            simp only [List.cons_append, List.cons.injEq] at this
            exact ⟨this.1.symm, this.2⟩
          have hbpre : f b < f (bestScan f b l) := by
            have := hpre q (by simp)
            rwa [h1.1] at this
          refine ⟨b :: a :: pre2, post, ?_, ?_⟩
          · rw [List.cons_append, List.cons_append]
            exact congrArg (b :: ·) (congrArg (a :: ·) h1.2)
          · intro x hx
            rcases List.mem_cons.mp hx with h | h
            · exact h ▸ hbpre
            · rcases List.mem_cons.mp h with h2 | h2
              · exact h2 ▸ lt_of_le_of_lt hab hbpre
              · exact hpre x (by simp [h2])

/-- The points value of a team whose `points` attribute has been assigned. -/
def pv (t : Team) : Int :=
  t.points.getD 0

lemma pointsAttr_eq_ok {t : Team} (h : t.points.isSome) :
    t.pointsAttr = .ok (pv t) := by
  unfold Team.pointsAttr pv
  cases hp : t.points with
  | none => simp [hp] at h
  | some n => simp

/-- The ranking preorder of `get_top_team`: `topPrefLE x y` says `y` ranks at
least as high as `x` (more points, or equal points and at least the goal
difference). -/
def topPrefLE (x y : Team) : Prop :=
  pv x < pv y ∨ (pv x = pv y ∧ x.gd ≤ y.gd)

lemma topPrefLE_refl (x : Team) : topPrefLE x x :=
  Or.inr ⟨rfl, le_refl _⟩

lemma topPrefLE_trans {x y z : Team} (h1 : topPrefLE x y) (h2 : topPrefLE y z) :
    topPrefLE x z := by
  unfold topPrefLE at *
  rcases h1 with h1 | ⟨h1, h1g⟩ <;> rcases h2 with h2 | ⟨h2, h2g⟩
  · exact Or.inl (lt_trans h1 h2)
  · exact Or.inl (h2 ▸ h1)
  · exact Or.inl (h1 ▸ h2)
  · exact Or.inr ⟨h1.trans h2, h1g.trans h2g⟩

lemma topTeamScan_spec (b : Team) (l : List Team) (hb : b.points.isSome)
    (hl : ∀ t ∈ l, t.points.isSome) :
    ∃ r, topTeamScan b l = .ok r ∧ r ∈ b :: l ∧ ∀ x ∈ b :: l, topPrefLE x r := by
  induction l generalizing b with
  | nil =>
    exact ⟨b, rfl, by simp, by simpa using topPrefLE_refl b⟩
  | cons a l ih =>
    have ha : a.points.isSome := hl a (by simp)
    have hl2 : ∀ t ∈ l, t.points.isSome := fun t ht => hl t (by simp [ht])
    have hrun : topTeamScan b (a :: l) =
        (if pv a > pv b then topTeamScan a l
         else if pv a = pv b then
           if a.gd > b.gd then topTeamScan a l else topTeamScan b l
         else topTeamScan b l) := by
      simp only [topTeamScan]
      rw [pointsAttr_eq_ok ha, pointsAttr_eq_ok hb]
      rfl
    by_cases h1 : pv a > pv b
    · obtain ⟨r, hok, hmem, hmax⟩ := ih a ha hl2
      refine ⟨r, by rw [hrun, if_pos h1]; exact hok, by simp [List.mem_cons.mp hmem], ?_⟩
      intro x hx
      rcases List.mem_cons.mp hx with h | h
      · exact h ▸ topPrefLE_trans (Or.inl h1) (hmax a (by simp))
      · exact hmax x h
    · by_cases h2 : pv a = pv b
      · by_cases h3 : a.gd > b.gd
        · obtain ⟨r, hok, hmem, hmax⟩ := ih a ha hl2
          refine ⟨r, by rw [hrun, if_neg h1, if_pos h2, if_pos h3]; exact hok,
            by simp [List.mem_cons.mp hmem], ?_⟩
          intro x hx
          rcases List.mem_cons.mp hx with h | h
          · exact h ▸ topPrefLE_trans (Or.inr ⟨h2.symm, le_of_lt h3⟩)
              (hmax a (by simp))
          · exact hmax x h
        · obtain ⟨r, hok, hmem, hmax⟩ := ih b hb hl2
          refine ⟨r, by rw [hrun, if_neg h1, if_pos h2, if_neg h3]; exact hok, ?_, ?_⟩
          · rcases List.mem_cons.mp hmem with h | h
            · simp [h]
            · simp [h]
          · intro x hx
            rcases List.mem_cons.mp hx with h | h
            · exact h ▸ hmax b (by simp)
            · rcases List.mem_cons.mp h with h4 | h4
              · push_neg at h3
                exact h4 ▸ topPrefLE_trans (Or.inr ⟨h2, h3⟩) (hmax b (by simp))
              · exact hmax x (by simp [h4])
      · obtain ⟨r, hok, hmem, hmax⟩ := ih b hb hl2
        refine ⟨r, by rw [hrun, if_neg h1, if_neg h2]; exact hok, ?_, ?_⟩
        · rcases List.mem_cons.mp hmem with h | h
          · simp [h]
          · simp [h]
        · intro x hx
          rcases List.mem_cons.mp hx with h | h
          · exact h ▸ hmax b (by simp)
          · rcases List.mem_cons.mp h with h4 | h4
            · push_neg at h1
              have h5 : pv a < pv b := lt_of_le_of_ne h1 h2
              exact h4 ▸ topPrefLE_trans (Or.inl h5) (hmax b (by simp))
            · exact hmax x (by simp [h4])

/-- The ranking preorder of `get_bottom_team`: `botPrefLE x y` says `y` ranks
at least as low as `x`. -/
def botPrefLE (x y : Team) : Prop :=
  pv y < pv x ∨ (pv x = pv y ∧ y.gd ≤ x.gd)

lemma botPrefLE_refl (x : Team) : botPrefLE x x :=
  Or.inr ⟨rfl, le_refl _⟩

lemma botPrefLE_trans {x y z : Team} (h1 : botPrefLE x y) (h2 : botPrefLE y z) :
    botPrefLE x z := by
  unfold botPrefLE at *
  rcases h1 with h1 | ⟨h1, h1g⟩ <;> rcases h2 with h2 | ⟨h2, h2g⟩
  · exact Or.inl (lt_trans h2 h1)
  · exact Or.inl (h2 ▸ h1)
  · exact Or.inl (h1 ▸ h2)
  · exact Or.inr ⟨h1.trans h2, h2g.trans h1g⟩

lemma bottomTeamScan_spec (b : Team) (l : List Team) (hb : b.points.isSome)
    (hl : ∀ t ∈ l, t.points.isSome) :
    ∃ r, bottomTeamScan b l = .ok r ∧ r ∈ b :: l ∧ ∀ x ∈ b :: l, botPrefLE x r := by
  induction l generalizing b with
  | nil =>
    exact ⟨b, rfl, by simp, by simpa using botPrefLE_refl b⟩
  | cons a l ih =>
    have ha : a.points.isSome := hl a (by simp)
    have hl2 : ∀ t ∈ l, t.points.isSome := fun t ht => hl t (by simp [ht])
    have hrun : bottomTeamScan b (a :: l) =
        (if pv a < pv b then bottomTeamScan a l
         else if pv a = pv b then
           if a.gd < b.gd then bottomTeamScan a l else bottomTeamScan b l
         else bottomTeamScan b l) := by
      simp only [bottomTeamScan]
      rw [pointsAttr_eq_ok ha, pointsAttr_eq_ok hb]
      rfl
    by_cases h1 : pv a < pv b
    · obtain ⟨r, hok, hmem, hmax⟩ := ih a ha hl2
      refine ⟨r, by rw [hrun, if_pos h1]; exact hok, by simp [List.mem_cons.mp hmem], ?_⟩
      intro x hx
      rcases List.mem_cons.mp hx with h | h
      · exact h ▸ botPrefLE_trans (Or.inl h1) (hmax a (by simp))
      · exact hmax x h
    · by_cases h2 : pv a = pv b
      · by_cases h3 : a.gd < b.gd
        · obtain ⟨r, hok, hmem, hmax⟩ := ih a ha hl2
          refine ⟨r, by rw [hrun, if_neg h1, if_pos h2, if_pos h3]; exact hok,
            by simp [List.mem_cons.mp hmem], ?_⟩
          intro x hx
          rcases List.mem_cons.mp hx with h | h
          · exact h ▸ botPrefLE_trans (Or.inr ⟨h2.symm, le_of_lt h3⟩)
              (hmax a (by simp))
          · exact hmax x h
        · obtain ⟨r, hok, hmem, hmax⟩ := ih b hb hl2
          refine ⟨r, by rw [hrun, if_neg h1, if_pos h2, if_neg h3]; exact hok, ?_, ?_⟩
          · rcases List.mem_cons.mp hmem with h | h
            · simp [h]
            · simp [h]
          · intro x hx
            rcases List.mem_cons.mp hx with h | h
            · exact h ▸ hmax b (by simp)
            · rcases List.mem_cons.mp h with h4 | h4
              · push_neg at h3
                exact h4 ▸ botPrefLE_trans (Or.inr ⟨h2, h3⟩) (hmax b (by simp))
              · exact hmax x (by simp [h4])
      · obtain ⟨r, hok, hmem, hmax⟩ := ih b hb hl2
        refine ⟨r, by rw [hrun, if_neg h1, if_neg h2]; exact hok, ?_, ?_⟩
        · rcases List.mem_cons.mp hmem with h | h
          · simp [h]
          · simp [h]
        · intro x hx
          rcases List.mem_cons.mp hx with h | h
          · exact h ▸ hmax b (by simp)
          · rcases List.mem_cons.mp h with h4 | h4
            · push_neg at h1
              have h5 : pv b < pv a := lt_of_le_of_ne h1 (fun he => h2 he.symm)
              exact h4 ▸ botPrefLE_trans (Or.inl h5) (hmax b (by simp))
            · exact hmax x (by simp [h4])

lemma ofPyName_pyName (pos : Position) :
    Position.ofPyName pos.pyName = .ok pos := by
  cases pos <;> rfl

lemma mkPlayer_ok {pid : Nat} {name : String} {pos : Position}
    {age rating : Int} (h1 : 0 ≤ rating) (h2 : rating ≤ 100)
    (h3 : 15 ≤ age) (h4 : age ≤ 50) :
    mkPlayer pid name pos age rating = .ok {
      pid := pid, name := name, position := pos, age := age,
      overall_rating := rating, stamina := 100, injured := false,
      is_captain := false, goals := 0, assists := 0, matches_played := 0,
      yellow_cards := 0, red_cards := 0, suspended := false,
      contract_years_left := 3, morale := 70, retired := false,
      on_loan := false, loaned_to := none, loan_duration := 0 } := by
  unfold mkPlayer
  rw [if_neg (by omega), if_neg (by omega)]

/-- How a reloaded player relates to the original it was saved from: the six
saved fields agree, every other field is the construction default. -/
def reloadMatches (p q : Player) : Prop :=
  q.name = p.name ∧ q.position = p.position ∧ q.age = p.age ∧
    q.overall_rating = p.overall_rating ∧ q.stamina = p.stamina ∧
    q.injured = p.injured ∧
    q.goals = 0 ∧ q.assists = 0 ∧ q.matches_played = 0 ∧
    q.yellow_cards = 0 ∧ q.red_cards = 0 ∧ q.suspended = false ∧
    q.contract_years_left = 3 ∧ q.morale = 70 ∧ q.is_captain = false ∧
    q.retired = false ∧ q.on_loan = false ∧ q.loaned_to = none ∧
    q.loan_duration = 0

instance : ∀ p q, Decidable (reloadMatches p q) := fun p q => by
  unfold reloadMatches; infer_instance

/-- The record saved for one player by `Manager.save_team_to_file`. -/
def savedOf (p : Player) : SavedPlayer :=
  { name := p.name
    position := p.position.pyName
    age := p.age
    rating := p.overall_rating
    stamina := p.stamina
    injured := p.injured }

lemma save_team_players (m : Manager) :
    (m.save_team_to_file).players = m.team.players.map savedOf := rfl

lemma loadPlayers_step {t t1 : Team} {pid : Nat} {sp : SavedPlayer}
    {rest : List SavedPlayer} {pos : Position} {pl : Player}
    (hpos : Position.ofPyName sp.position = .ok pos)
    (hpl : mkPlayer pid sp.name pos sp.age sp.rating = .ok pl)
    (hadd : t.add_player { pl with
      stamina := sp.stamina,
      injured := sp.injured } = (t1, none)) :
    loadPlayers t pid (sp :: rest) = loadPlayers t1 (pid + 1) rest := by
  simp only [loadPlayers]
  rw [hpos]
  simp only [bind, Except.bind]
  rw [hpl]
  dsimp only
  rw [hadd]

/-- The load loop succeeds on the saved records of players whose age and
rating satisfy the constructor ranges, appending to the roster one freshly
numbered player per record, matching the original as `reloadMatches`. -/
lemma loadPlayers_saved (ps : List Player) (t : Team) (pid : Nat)
    (hpid : ∀ q ∈ t.players, q.pid < pid)
    (hval : ∀ p ∈ ps, 15 ≤ p.age ∧ p.age ≤ 50 ∧
      0 ≤ p.overall_rating ∧ p.overall_rating ≤ 100) :
    ∃ t2, loadPlayers t pid (ps.map savedOf) = .ok t2 ∧
      t2.name = t.name ∧
      (∃ newps, t2.players = t.players ++ newps ∧
        List.Forall₂ reloadMatches ps newps) ∧
      (∀ q ∈ t2.players, q.pid < pid + ps.length) := by
  induction ps generalizing t pid with
  | nil =>
    exact ⟨t, rfl, rfl, ⟨[], by simp, List.Forall₂.nil⟩, by simpa using hpid⟩
  | cons p ps ih =>
    obtain ⟨ha1, ha2, hr1, hr2⟩ := hval p (by simp)
    have hmk := @mkPlayer_ok pid p.name p.position p.age p.overall_rating
      hr1 hr2 ha1 ha2
    obtain ⟨fresh, hfresh⟩ : ∃ fresh : Player, fresh = {
          pid := pid, name := p.name, position := p.position,
          age := p.age, overall_rating := p.overall_rating,
          stamina := p.stamina, injured := p.injured, is_captain := false,
          goals := 0, assists := 0, matches_played := 0, yellow_cards := 0,
          red_cards := 0, suspended := false, contract_years_left := 3,
          morale := 70, retired := false, on_loan := false,
          loaned_to := none, loan_duration := 0 } := ⟨_, rfl⟩
    have hnotmem : fresh ∉ t.players := by
      intro hmem
      have := hpid fresh hmem
      simp [hfresh] at this
    have hadd : t.add_player fresh =
        ({ t with players := t.players ++ [fresh] }, none) := by
      unfold Team.add_player
      rw [if_neg hnotmem, if_neg (by simp [hfresh])]
    have hstep : loadPlayers t pid ((p :: ps).map savedOf) =
        loadPlayers { t with players := t.players ++ [fresh] } (pid + 1)
          (ps.map savedOf) := by
      subst hfresh
      rw [List.map_cons]
      exact loadPlayers_step (ofPyName_pyName p.position) hmk hadd
    have hpid2 : ∀ q ∈ t.players ++ [fresh], q.pid < pid + 1 := by
      intro q hq
      rcases List.mem_append.mp hq with h | h
      · exact Nat.lt_succ_of_lt (hpid q h)
      · simp only [List.mem_singleton] at h
        simp [h, hfresh]
    obtain ⟨t2, hok, hname, ⟨newps, hplayers, hforall⟩, hbound⟩ :=
      ih { t with players := t.players ++ [fresh] } (pid + 1) hpid2
        (fun q hq => hval q (by simp [hq]))
    refine ⟨t2, by rw [hstep]; exact hok, hname,
      ⟨fresh :: newps, by simpa using hplayers, ?_⟩, ?_⟩
    · exact List.Forall₂.cons (by simp [reloadMatches, hfresh]) hforall
    · intro q hq
      have := hbound q hq
      simp only [List.length_cons]
      omega

lemma playerInv_mkPlayer {pid : Nat} {name : String} {pos : Position}
    {age rating : Int} {p : Player}
    (h : mkPlayer pid name pos age rating = .ok p) : PlayerInv p := by
  unfold mkPlayer at h
  split_ifs at h with h1 h2
  simp only [Except.ok.injEq] at h
  subst h
  push_neg at h1
  unfold PlayerInv
  refine ⟨by simp, by simp, by simp, by simp, by simpa using h1.1, by simpa using h1.2⟩

/-- Concrete fixture: the player `mkPlayer i "W" MIDFIELDER 20 50` produces
(used by witnesses). -/
def wP (i : Nat) : Player := {
  pid := i, name := "W", position := .MIDFIELDER, age := 20,
  overall_rating := 50, stamina := 100, injured := false,
  is_captain := false, goals := 0, assists := 0, matches_played := 0,
  yellow_cards := 0, red_cards := 0, suspended := false,
  contract_years_left := 3, morale := 70, retired := false,
  on_loan := false, loaned_to := none, loan_duration := 0 }

/-- Concrete fixture team with two players on the roster. -/
def wTeam2 : Team :=
  ((((mkTeam "W").add_player (wP 0)).1).add_player (wP 1)).1

/-- C5: `Player(name, position, age, rating)` succeeds iff age ∈ [15, 50]
and rating ∈ [0, 100], fails with a `ValueError` otherwise, and on success
initializes stamina = 100, morale = 70, contract_years_left = 3, all
counters 0 and all boolean flags false. -/
theorem C5_player_constructor (pid : Nat) (name : String) (pos : Position)
    (a r : Int) :
    ((∃ p, mkPlayer pid name pos a r = .ok p) ↔
      (15 ≤ a ∧ a ≤ 50 ∧ 0 ≤ r ∧ r ≤ 100)) ∧
    (∀ p, mkPlayer pid name pos a r = .ok p →
      p.stamina = 100 ∧ p.morale = 70 ∧ p.contract_years_left = 3 ∧
      p.goals = 0 ∧ p.assists = 0 ∧ p.matches_played = 0 ∧
      p.yellow_cards = 0 ∧ p.red_cards = 0 ∧ p.loan_duration = 0 ∧
      p.injured = false ∧ p.is_captain = false ∧ p.suspended = false ∧
      p.retired = false ∧ p.on_loan = false ∧ p.loaned_to = none) ∧
    (¬(15 ≤ a ∧ a ≤ 50 ∧ 0 ≤ r ∧ r ≤ 100) →
      ∃ e, mkPlayer pid name pos a r = .error e) := by
  unfold mkPlayer
  split_ifs with h1 h2
  · refine ⟨?_, ?_, fun _ => ⟨_, rfl⟩⟩
    · constructor
      · rintro ⟨p, hp⟩
        simp at hp
      · intro hr
        omega
    · intro p hp
      simp at hp
  · refine ⟨?_, ?_, fun _ => ⟨_, rfl⟩⟩
    · constructor
      · rintro ⟨p, hp⟩
        simp at hp
      · intro hr
        omega
    · intro p hp
      simp at hp
  · push_neg at h1 h2
    refine ⟨?_, ?_, ?_⟩
    · exact ⟨fun _ => by omega, fun _ => ⟨_, rfl⟩⟩
    · intro p hp
      simp only [Except.ok.injEq] at hp
      subst hp
      exact ⟨rfl, rfl, rfl, rfl, rfl, rfl, rfl, rfl, rfl, rfl, rfl, rfl,
        rfl, rfl, rfl⟩
    · intro hc
      exact absurd ⟨by omega, by omega, by omega, by omega⟩ hc

/-- Witness for C5 at age 20, rating 50 (valid) and its initial state. -/
theorem C5_player_constructor_witness :
    (∃ p, mkPlayer 0 "W" Position.MIDFIELDER 20 50 = .ok p) ∧
    (wP 0).stamina = 100 ∧ (wP 0).morale = 70 ∧
    (∃ e, mkPlayer 1 "X" Position.MIDFIELDER 51 50 = .error e) :=
  ⟨(C5_player_constructor 0 "W" Position.MIDFIELDER 20 50).1.mpr
      (by decide),
   ((C5_player_constructor 0 "W" Position.MIDFIELDER 20 50).2.1 (wP 0)
      rfl).1,
   ((C5_player_constructor 0 "W" Position.MIDFIELDER 20 50).2.1 (wP 0)
      rfl).2.1,
   (C5_player_constructor 1 "X" Position.MIDFIELDER 51 50).2.2
      (by decide)⟩

/-- C4: on a fresh player, two yellow cards convert to one red with a
suspension (yellow_cards 0, red_cards 1, suspended true); a red card
increments red_cards and suspends directly; any other card type raises
`ValueError` without mutation. -/
theorem C4_receive_card :
    (∀ (pid : Nat) (name : String) (pos : Position) (a r : Int) (p : Player),
      mkPlayer pid name pos a r = .ok p →
      (((p.receive_card "yellow").1.receive_card "yellow").1.yellow_cards = 0 ∧
       ((p.receive_card "yellow").1.receive_card "yellow").1.red_cards = 1 ∧
       ((p.receive_card "yellow").1.receive_card "yellow").1.suspended = true)) ∧
    (∀ p : Player, p.receive_card "red" =
      ({ p with red_cards := p.red_cards + 1, suspended := true }, none)) ∧
    (∀ (p : Player) (s : String), s ≠ "yellow" → s ≠ "red" →
      p.receive_card s = (p, some "Invalid card type.")) := by
  refine ⟨?_, ?_, ?_⟩
  · intro pid name pos a r p hp
    unfold mkPlayer at hp
    split_ifs at hp
    simp only [Except.ok.injEq] at hp
    subst hp
    norm_num [Player.receive_card]
  · intro p
    unfold Player.receive_card
    rw [if_neg (by decide), if_pos rfl]
  · intro p s h1 h2
    unfold Player.receive_card
    rw [if_neg h1, if_neg h2]

/-- Witness for C4 on the fixture player and the card type "blue". -/
theorem C4_receive_card_witness :
    (((wP 0).receive_card "yellow").1.receive_card "yellow").1.red_cards = 1 ∧
    (wP 0).receive_card "blue" = (wP 0, some "Invalid card type.") :=
  ⟨(C4_receive_card.1 0 "W" Position.MIDFIELDER 20 50 (wP 0) rfl).2.1,
   C4_receive_card.2.2 (wP 0) "blue" (by decide) (by decide)⟩

/-- C6: from any validly constructed player, any finite sequence of Player
method calls keeps stamina, morale and overall_rating inside [0, 100]. -/
theorem C6_player_bounds (pid : Nat) (name : String) (pos : Position)
    (age rating : Int) (p : Player) (calls : List PCall)
    (h : mkPlayer pid name pos age rating = .ok p) :
    PlayerInv (runCalls calls p) :=
  playerInv_runCalls calls p (playerInv_mkPlayer h)

/-- Witness for C6: a concrete call sequence on the fixture player. -/
theorem C6_player_bounds_witness :
    PlayerInv (runCalls [.train, .train, .rest, .change_morale 50,
      .change_morale (-200), .receive_card "yellow"] (wP 0)) :=
  C6_player_bounds 0 "W" Position.MIDFIELDER 20 50 (wP 0)
    [.train, .train, .rest, .change_morale 50, .change_morale (-200),
     .receive_card "yellow"] rfl

/-- C7: market value is rating×0.4 + max(0, 30−age)×0.3 + goals×0.1 rounded
to 2 decimals; it is 36.70 at rating 86, age 25, goals 8 and 41.20 at
rating 91, age 24, goals 30. -/
theorem C7_market_value :
    (∀ p : Player, p.get_market_value =
      round2 ((p.overall_rating : ℚ) * (4/10) +
        ((max 0 (30 - p.age) : Int) : ℚ) * (3/10) + (p.goals : ℚ) * (1/10))) ∧
    (∀ p : Player, p.overall_rating = 86 → p.age = 25 → p.goals = 8 →
      p.get_market_value = 367/10) ∧
    (∀ p : Player, p.overall_rating = 91 → p.age = 24 → p.goals = 30 →
      p.get_market_value = 412/10) := by
  refine ⟨fun p => rfl, ?_, ?_⟩
  · intro p h1 h2 h3
    unfold Player.get_market_value
    rw [h1, h2, h3]
    norm_num [round2]
  · intro p h1 h2 h3
    unfold Player.get_market_value
    rw [h1, h2, h3]
    norm_num [round2]

/-- Witness for C7 at the two stated field combinations. -/
theorem C7_market_value_witness :
    ({ wP 0 with
      overall_rating := 86, age := 25,
      goals := 8 } : Player).get_market_value = 367/10 ∧
    ({ wP 0 with
      overall_rating := 91, age := 24,
      goals := 30 } : Player).get_market_value = 412/10 :=
  ⟨C7_market_value.2.1 _ rfl rfl rfl, C7_market_value.2.2 _ rfl rfl rfl⟩

/-- C10 (amended): when the team's `max_players` attribute was never
assigned (the state `Team.__init__` leaves), buying a player not on the
roster raises `AttributeError` from the capacity check and never adds the
player; but when external code has assigned `max_players` (as the
repository's tests do), a buy within capacity and budget of a non-retired,
absent player succeeds, adds the player to the roster, and debits the
budget. -/
theorem C10_buy_player :
    (∀ (m : Manager) (p : Player) (price : Int),
      p ∉ m.team.players → m.team.max_players = none →
      m.buy_player p price =
        (m, some "AttributeError: Team object has no attribute max_players")) ∧
    (∀ (m : Manager) (p : Player) (price mx : Int),
      p ∉ m.team.players → m.team.max_players = some mx →
      (m.team.players.length : Int) < mx → price ≤ m.budget →
      p.retired = false →
      m.buy_player p price =
        ({ team := { m.team with players := m.team.players ++ [p] },
           budget := m.budget - price }, none)) := by
  constructor
  · intro m p price h1 h2
    unfold Manager.buy_player
    rw [if_neg h1, h2]
  · intro m p price mx h1 h2 h3 h4 h5
    have hadd : m.team.add_player p =
        ({ m.team with players := m.team.players ++ [p] }, none) := by
      unfold Team.add_player
      rw [if_neg h1, if_neg (by simp [h5])]
    unfold Manager.buy_player
    rw [if_neg h1, h2]
    dsimp only
    rw [if_neg (not_le.mpr h3), if_neg (not_lt.mpr h4), hadd]

/-- Fixture team with an externally assigned `max_players`, as the tests
build it before buying. -/
def tC10 : Team := { wTeam2 with max_players := some 20 }

/-- Fixture manager over `tC10` (budget 100 from `Manager.__init__`). -/
def mC10 : Manager := mkManager tC10

/-- Counterexample to C10 as stated: with `max_players` externally assigned
(the repository's own `test_buy_player` does exactly this), buying an
absent player within capacity and budget raises nothing and adds the player
to the team, refuting the universal "raises an error and never adds". -/
theorem C10_buy_player_counterexample :
    wP 5 ∉ mC10.team.players ∧
    mC10.buy_player (wP 5) 30 =
      ({ team := { tC10 with players := tC10.players ++ [wP 5] },
         budget := 70 }, none) ∧
    wP 5 ∈ (mC10.buy_player (wP 5) 30).1.team.players :=
  ⟨by decide, by decide, by decide⟩

/-- Witness for C10: the unassigned-attribute failure on a fresh team, and
a successful buy on the fixture manager. -/
theorem C10_buy_player_witness :
    (mkManager (mkTeam "W")).buy_player (wP 0) 10 =
      (mkManager (mkTeam "W"),
       some "AttributeError: Team object has no attribute max_players") ∧
    mC10.buy_player (wP 5) 30 =
      ({ team := { mC10.team with players := mC10.team.players ++ [wP 5] },
         budget := mC10.budget - 30 }, none) :=
  ⟨C10_buy_player.1 (mkManager (mkTeam "W")) (wP 0) 10 (by decide) rfl,
   C10_buy_player.2 mC10 (wP 5) 30 20 (by decide) rfl (by decide)
     (by decide) rfl⟩

/-- C8: assigning a starting eleven fails when the list is not exactly 11
long or contains a player not on the roster; otherwise it replaces
`starting_eleven` wholesale; the bench and the roster are never touched. -/
theorem C8_assign_starting_eleven (t : Team) (ps : List Player) :
    (ps.length ≠ 11 →
      t.assign_starting_eleven ps =
        (t, some "Starting eleven must contain 11 players.")) ∧
    ((∃ p ∈ ps, p ∉ t.players) →
      ((t.assign_starting_eleven ps).2.isSome ∧
        (t.assign_starting_eleven ps).1 = t)) ∧
    (ps.length = 11 → (∀ p ∈ ps, p ∈ t.players) →
      t.assign_starting_eleven ps = ({ t with starting_eleven := ps }, none)) ∧
    ((t.assign_starting_eleven ps).1.bench = t.bench ∧
      (t.assign_starting_eleven ps).1.players = t.players) := by
  unfold Team.assign_starting_eleven
  by_cases hlen : ps.length = 11
  · rw [if_neg (not_not_intro hlen)]
    cases hfind : ps.find? (fun p => decide (p ∉ t.players)) with
    | none =>
      refine ⟨fun hc => absurd hlen hc, ?_, fun _ _ => rfl, rfl, rfl⟩
      rintro ⟨p, hp, hnot⟩
      have := List.find?_eq_none.mp hfind p hp
      simp at this
      exact absurd this hnot
    | some q =>
      refine ⟨fun hc => absurd hlen hc, fun _ => ⟨rfl, rfl⟩, ?_, rfl, rfl⟩
      intro _ hall
      have hq := List.find?_some hfind
      have hqmem := List.mem_of_find?_eq_some hfind
      simp at hq
      exact absurd (hall q hqmem) hq
  · rw [if_pos hlen]
    exact ⟨fun _ => rfl, fun _ => ⟨rfl, rfl⟩, fun h11 => absurd h11 hlen,
      rfl, rfl⟩

/-- Eleven distinct fixture players. -/
def wEleven : List Player :=
  (List.range 11).map wP

/-- Fixture team whose roster is the eleven fixture players. -/
def wTeam11 : Team :=
  { mkTeam "W" with players := wEleven }

/-- Witness for C8: a short list fails, a foreign player fails without
mutation, and a valid list of 11 roster members is assigned wholesale. -/
theorem C8_assign_starting_eleven_witness :
    (mkTeam "W").assign_starting_eleven [] =
      (mkTeam "W", some "Starting eleven must contain 11 players.") ∧
    (((wTeam11.assign_starting_eleven
        (wP 99 :: (List.range 10).map wP)).2).isSome ∧
      (wTeam11.assign_starting_eleven
        (wP 99 :: (List.range 10).map wP)).1 = wTeam11) ∧
    wTeam11.assign_starting_eleven wEleven =
      ({ wTeam11 with starting_eleven := wEleven }, none) :=
  ⟨(C8_assign_starting_eleven (mkTeam "W") []).1 (by decide),
   (C8_assign_starting_eleven wTeam11
      (wP 99 :: (List.range 10).map wP)).2.1
     ⟨wP 99, by decide, by decide⟩,
   (C8_assign_starting_eleven wTeam11 wEleven).2.2.1 (by decide)
     (by decide)⟩

/-- C9: each of the four roster queries returns the earliest player among
those maximizing its statistic (every strictly earlier player has a strictly
smaller value), and `none` on an empty roster. -/
theorem C9_roster_queries (t : Team) :
    (t.players = [] →
      t.get_best_player = none ∧ t.get_top_scorer = none ∧
      t.get_top_assistant = none ∧ t.get_most_active_player = none) ∧
    (t.players ≠ [] →
      (∃ r pre post, t.get_best_player = some r ∧
        t.players = pre ++ r :: post ∧
        (∀ x ∈ t.players, x.overall_rating ≤ r.overall_rating) ∧
        (∀ x ∈ pre, x.overall_rating < r.overall_rating)) ∧
      (∃ r pre post, t.get_top_scorer = some r ∧
        t.players = pre ++ r :: post ∧
        (∀ x ∈ t.players, x.goals ≤ r.goals) ∧
        (∀ x ∈ pre, x.goals < r.goals)) ∧
      (∃ r pre post, t.get_top_assistant = some r ∧
        t.players = pre ++ r :: post ∧
        (∀ x ∈ t.players, x.assists ≤ r.assists) ∧
        (∀ x ∈ pre, x.assists < r.assists)) ∧
      (∃ r pre post, t.get_most_active_player = some r ∧
        t.players = pre ++ r :: post ∧
        (∀ x ∈ t.players, x.matches_played ≤ r.matches_played) ∧
        (∀ x ∈ pre, x.matches_played < r.matches_played))) := by
  constructor
  · intro h0
    refine ⟨?_, ?_, ?_, ?_⟩ <;>
      simp [Team.get_best_player, Team.get_top_scorer,
        Team.get_top_assistant, Team.get_most_active_player, h0]
  · intro hne
    obtain ⟨b, rest, ht⟩ : ∃ b rest, t.players = b :: rest := by
      cases hp : t.players with
      | nil => exact absurd hp hne
      | cons b rest => exact ⟨b, rest, rfl⟩
    refine ⟨?_, ?_, ?_, ?_⟩
    · obtain ⟨hmax, pre, post, hdec, hpre⟩ :=
        bestScan_spec Player.overall_rating b rest
      exact ⟨bestScan Player.overall_rating b rest, pre, post,
        by simp [Team.get_best_player, ht],
        by rw [ht]; exact hdec, by rw [ht]; exact hmax, hpre⟩
    · obtain ⟨hmax, pre, post, hdec, hpre⟩ :=
        bestScan_spec Player.goals b rest
      exact ⟨bestScan Player.goals b rest, pre, post,
        by simp [Team.get_top_scorer, ht],
        by rw [ht]; exact hdec, by rw [ht]; exact hmax, hpre⟩
    · obtain ⟨hmax, pre, post, hdec, hpre⟩ :=
        bestScan_spec Player.assists b rest
      exact ⟨bestScan Player.assists b rest, pre, post,
        by simp [Team.get_top_assistant, ht],
        by rw [ht]; exact hdec, by rw [ht]; exact hmax, hpre⟩
    · obtain ⟨hmax, pre, post, hdec, hpre⟩ :=
        bestScan_spec Player.matches_played b rest
      exact ⟨bestScan Player.matches_played b rest, pre, post,
        by simp [Team.get_most_active_player, ht],
        by rw [ht]; exact hdec, by rw [ht]; exact hmax, hpre⟩

/-- Witness for C9 on a two-player roster and on an empty roster. -/
theorem C9_roster_queries_witness :
    (∃ r pre post, wTeam2.get_best_player = some r ∧
      wTeam2.players = pre ++ r :: post ∧
      (∀ x ∈ wTeam2.players, x.overall_rating ≤ r.overall_rating) ∧
      (∀ x ∈ pre, x.overall_rating < r.overall_rating)) ∧
    (mkTeam "E").get_best_player = none :=
  ⟨((C9_roster_queries wTeam2).2 (by decide)).1,
   ((C9_roster_queries (mkTeam "E")).1 rfl).1⟩

/-- C1 (amended): every fallible operation of Player, Team and League other
than `swap_players` validates before mutating, so a raising call leaves the
receiver unchanged; `swap_players` raising because `player_out` is absent
also leaves the roster unchanged (but a failure of the inner `add_player`
happens after the removal, see the counterexample). -/
theorem C1_failure_atomicity :
    (∀ (t : Team) (p : Player),
      ((t.add_player p).2).isSome → (t.add_player p).1 = t) ∧
    (∀ (t : Team) (p : Player),
      ((t.remove_player p).2).isSome → (t.remove_player p).1 = t) ∧
    (∀ (t : Team) (f : String),
      ((t.set_formation f).2).isSome → (t.set_formation f).1 = t) ∧
    (∀ (t : Team) (ps : List Player),
      ((t.assign_starting_eleven ps).2).isSome →
        (t.assign_starting_eleven ps).1 = t) ∧
    (∀ (t : Team) (po pin : Player), po ∉ t.players →
      t.swap_players po pin =
        (t, some "Player to remove is not in the team.")) ∧
    (∀ (lg : League) (tm : Team),
      ((lg.add_team tm).2).isSome → (lg.add_team tm).1 = lg) ∧
    (∀ (lg : League) (tm : Team),
      ((lg.remove_team tm).2).isSome → (lg.remove_team tm).1 = lg) ∧
    (∀ (lg : League) (o n : Team),
      ((lg.replace_team o n).2).isSome → (lg.replace_team o n).1 = lg) ∧
    (∀ (p : Player) (c : PCall),
      ((applyCall c p).2).isSome → (applyCall c p).1 = p) := by
  refine ⟨?_, ?_, ?_, ?_, ?_, ?_, ?_, ?_, ?_⟩
  · intro t p
    unfold Team.add_player
    split_ifs <;> simp
  · intro t p
    unfold Team.remove_player
    split_ifs <;> simp
  · intro t f
    unfold Team.set_formation
    split_ifs <;> simp
  · intro t ps
    unfold Team.assign_starting_eleven
    split_ifs
    · simp
    · cases ps.find? (fun p => decide (p ∉ t.players)) <;> simp
  · intro t po pin h
    unfold Team.swap_players
    rw [if_pos h]
  · intro lg tm
    unfold League.add_team
    split_ifs <;> simp
  · intro lg tm
    unfold League.remove_team
    split_ifs <;> simp
  · intro lg o n
    unfold League.replace_team
    split_ifs <;> simp
  · intro p c
    cases c <;>
      simp only [applyCall, Player.recover_from_injury, Player.record_match,
        Player.receive_card, Player.renew_contract, Player.loan_to,
        Player.return_from_loan] <;>
      (try split_ifs) <;> simp

/-- The base state of the retired fixture player, as the constructor
returns it at age 40. -/
def bBase : Player := {
  pid := 1, name := "B", position := .MIDFIELDER, age := 40,
  overall_rating := 50, stamina := 100, injured := false,
  is_captain := false, goals := 0, assists := 0, matches_played := 0,
  yellow_cards := 0, red_cards := 0, suspended := false,
  contract_years_left := 3, morale := 70, retired := false,
  on_loan := false, loaned_to := none, loan_duration := 0 }

/-- A retired player, reached by constructing at age 40 and calling
`check_retirement`. -/
def retiredB : Player := bBase.check_retirement

/-- Fixture team with the single player `wP 0` on the roster. -/
def tC1 : Team := ((mkTeam "T").add_player (wP 0)).1

/-- Counterexample to C1 as stated: `swap_players` with a present
`player_out` and a retired `player_in` raises (from the inner `add_player`)
after the removal already happened, so the roster is mutated on failure.
Both players are reachable through the public constructor API. -/
theorem C1_failure_atomicity_counterexample :
    mkPlayer 1 "B" Position.MIDFIELDER 40 50 = .ok bBase ∧
    retiredB = bBase.check_retirement ∧
    retiredB.retired = true ∧
    tC1.players = [wP 0] ∧
    (tC1.swap_players (wP 0) retiredB).2 =
      some "Cannot add retired player." ∧
    (tC1.swap_players (wP 0) retiredB).1.players = [] :=
  ⟨rfl, rfl, by decide, by decide, by decide, by decide⟩

/-- Witness for C1 exercising every conjunct at concrete inputs. -/
theorem C1_failure_atomicity_witness :
    ((wTeam2.add_player (wP 0)).1 = wTeam2) ∧
    (((mkTeam "W").remove_player (wP 0)).1 = mkTeam "W") ∧
    (((mkTeam "W").set_formation "5-5-0").1 = mkTeam "W") ∧
    (((mkTeam "W").assign_starting_eleven []).1 = mkTeam "W") ∧
    ((mkTeam "W").swap_players (wP 0) (wP 1) =
      (mkTeam "W", some "Player to remove is not in the team.")) ∧
    ((((mkLeague "L").add_team (mkTeam "W")).1.add_team (mkTeam "W")).1 =
      ((mkLeague "L").add_team (mkTeam "W")).1) ∧
    (((mkLeague "L").remove_team (mkTeam "W")).1 = mkLeague "L") ∧
    (((mkLeague "L").replace_team (mkTeam "W") (mkTeam "X")).1 =
      mkLeague "L") ∧
    ((applyCall (.receive_card "blue") (wP 0)).1 = wP 0) :=
  ⟨C1_failure_atomicity.1 wTeam2 (wP 0) (by decide),
   C1_failure_atomicity.2.1 (mkTeam "W") (wP 0) (by decide),
   C1_failure_atomicity.2.2.1 (mkTeam "W") "5-5-0" (by decide),
   C1_failure_atomicity.2.2.2.1 (mkTeam "W") [] (by decide),
   C1_failure_atomicity.2.2.2.2.1 (mkTeam "W") (wP 0) (wP 1) (by decide),
   C1_failure_atomicity.2.2.2.2.2.1 ((mkLeague "L").add_team (mkTeam "W")).1
     (mkTeam "W") (by decide),
   C1_failure_atomicity.2.2.2.2.2.2.1 (mkLeague "L") (mkTeam "W")
     (by decide),
   C1_failure_atomicity.2.2.2.2.2.2.2.1 (mkLeague "L") (mkTeam "W")
     (mkTeam "X") (by decide),
   C1_failure_atomicity.2.2.2.2.2.2.2.2 (wP 0) (.receive_card "blue")
     (by decide)⟩

/-- C3: with every team exposing an assigned `points` value, get_top_team
returns a team with maximal points, maximal goal difference among the
point-tied; get_bottom_team dually; both return none on an empty league. -/
theorem C3_league_ranking :
    (∀ lg : League, lg.teams ≠ [] → (∀ t ∈ lg.teams, t.points.isSome) →
      ∃ r, lg.get_top_team = .ok (some r) ∧ r ∈ lg.teams ∧
        (∀ u ∈ lg.teams, pv u ≤ pv r) ∧
        (∀ u ∈ lg.teams, pv u = pv r → u.gd ≤ r.gd)) ∧
    (∀ lg : League, lg.teams ≠ [] → (∀ t ∈ lg.teams, t.points.isSome) →
      ∃ r, lg.get_bottom_team = .ok (some r) ∧ r ∈ lg.teams ∧
        (∀ u ∈ lg.teams, pv r ≤ pv u) ∧
        (∀ u ∈ lg.teams, pv u = pv r → r.gd ≤ u.gd)) ∧
    (∀ lg : League, lg.teams = [] →
      lg.get_top_team = .ok none ∧ lg.get_bottom_team = .ok none) := by
  refine ⟨?_, ?_, ?_⟩
  · intro lg hne hsome
    obtain ⟨b, rest, ht⟩ : ∃ b rest, lg.teams = b :: rest := by
      cases hp : lg.teams with
      | nil => exact absurd hp hne
      | cons b rest => exact ⟨b, rest, rfl⟩
    obtain ⟨r, hok, hmem, hmax⟩ := topTeamScan_spec b rest
      (hsome b (by rw [ht]; simp))
      (fun u hu => hsome u (by rw [ht]; simp [hu]))
    refine ⟨r, ?_, by rw [ht]; exact hmem, ?_, ?_⟩
    · simp [League.get_top_team, ht, hok, Except.map]
    · intro u hu
      rcases hmax u (ht ▸ hu) with h | ⟨h, _⟩
      · exact le_of_lt h
      · exact le_of_eq h
    · intro u hu hequ
      rcases hmax u (ht ▸ hu) with h | ⟨_, hg⟩
      · exact absurd hequ (ne_of_lt h)
      · exact hg
  · intro lg hne hsome
    obtain ⟨b, rest, ht⟩ : ∃ b rest, lg.teams = b :: rest := by
      cases hp : lg.teams with
      | nil => exact absurd hp hne
      | cons b rest => exact ⟨b, rest, rfl⟩
    obtain ⟨r, hok, hmem, hmax⟩ := bottomTeamScan_spec b rest
      (hsome b (by rw [ht]; simp))
      (fun u hu => hsome u (by rw [ht]; simp [hu]))
    refine ⟨r, ?_, by rw [ht]; exact hmem, ?_, ?_⟩
    · simp [League.get_bottom_team, ht, hok, Except.map]
    · intro u hu
      rcases hmax u (ht ▸ hu) with h | ⟨_, _⟩
      · exact le_of_lt h
      · omega
    · intro u hu hequ
      rcases hmax u (ht ▸ hu) with h | ⟨_, hg⟩
      · exact absurd hequ.symm (ne_of_lt h)
      · exact hg
  · intro lg h0
    constructor <;> simp [League.get_top_team, League.get_bottom_team, h0]

/-- Fixture teams with externally assigned points for the C3 witness. -/
def wTeamA : Team := { mkTeam "A" with points := some 10, goals_scored := 5 }

/-- Second fixture team: same points as `wTeamA`, better goal difference. -/
def wTeamB : Team := { mkTeam "B" with points := some 10, goals_scored := 8 }

/-- Fixture league containing the two point-tied teams. -/
def wLeague : League := { name := "L", teams := [wTeamA, wTeamB] }

/-- Witness for C3 on the two-team league and an empty league. -/
theorem C3_league_ranking_witness :
    (∃ r, wLeague.get_top_team = .ok (some r) ∧ r ∈ wLeague.teams ∧
      (∀ u ∈ wLeague.teams, pv u ≤ pv r) ∧
      (∀ u ∈ wLeague.teams, pv u = pv r → u.gd ≤ r.gd)) ∧
    (∃ r, wLeague.get_bottom_team = .ok (some r) ∧ r ∈ wLeague.teams ∧
      (∀ u ∈ wLeague.teams, pv r ≤ pv u) ∧
      (∀ u ∈ wLeague.teams, pv u = pv r → r.gd ≤ u.gd)) ∧
    (mkLeague "E").get_top_team = .ok none :=
  ⟨C3_league_ranking.1 wLeague (by decide) (by decide),
   C3_league_ranking.2.1 wLeague (by decide) (by decide),
   (C3_league_ranking.2.2 (mkLeague "E") rfl).1⟩

/-- C2 (amended): for every manager whose team players have age in [15, 50]
and rating in [0, 100] (ratings always stay in range, but age can exceed 50
via `age_up`, breaking the reload), save followed by load yields a team with
the same name and a roster matching the original pointwise: the six saved
fields equal the originals and every unsaved field is the constructor
default. -/
theorem C2_save_load_round_trip (m : Manager)
    (h : ∀ p ∈ m.team.players, 15 ≤ p.age ∧ p.age ≤ 50 ∧
      0 ≤ p.overall_rating ∧ p.overall_rating ≤ 100) :
    ∃ t2, load_team_from_file (m.save_team_to_file) = .ok t2 ∧
      t2.name = m.team.name ∧
      t2.players.length = m.team.players.length ∧
      List.Forall₂ reloadMatches m.team.players t2.players := by
  obtain ⟨t2, hok, hname, ⟨newps, hpl, hfa⟩, _⟩ :=
    loadPlayers_saved m.team.players (mkTeam m.team.name) 0
      (by simp [mkTeam]) h
  have hpl2 : t2.players = newps := by simpa [mkTeam] using hpl
  refine ⟨t2, ?_, by rw [hname]; rfl, ?_, ?_⟩
  · unfold load_team_from_file
    rw [save_team_players]
    exact hok
  · rw [hpl2, ← List.Forall₂.length_eq hfa]
  · rw [hpl2]
    exact hfa

/-- Witness for C2 on the two-player fixture team. -/
theorem C2_save_load_round_trip_witness :
    ∃ t2, load_team_from_file ((mkManager wTeam2).save_team_to_file) =
        .ok t2 ∧
      t2.name = (mkManager wTeam2).team.name ∧
      t2.players.length = (mkManager wTeam2).team.players.length ∧
      List.Forall₂ reloadMatches (mkManager wTeam2).team.players
        t2.players :=
  C2_save_load_round_trip (mkManager wTeam2) (by decide)

/-- A valid 50-year-old goalkeeper, as the constructor returns it. -/
def oldP : Player := {
  pid := 0, name := "Old", position := .GOALKEEPER, age := 50,
  overall_rating := 90, stamina := 100, injured := false,
  is_captain := false, goals := 0, assists := 0, matches_played := 0,
  yellow_cards := 0, red_cards := 0, suspended := false,
  contract_years_left := 3, morale := 70, retired := false,
  on_loan := false, loaned_to := none, loan_duration := 0 }

/-- Fixture team holding the player after one `age_up` (age 51). -/
def tC2 : Team := ((mkTeam "Vets").add_player oldP.age_up).1

/-- Counterexample to C2 as stated: a roster player can have age outside
the constructor range (age 51 via `age_up`), and then loading the saved
team raises `ValueError` from the `Player` constructor instead of yielding
a team.  The state is reachable through the public API. -/
theorem C2_save_load_round_trip_counterexample :
    mkPlayer 0 "Old" Position.GOALKEEPER 50 90 = .ok oldP ∧
    oldP.age_up.age = 51 ∧
    tC2.players.length = 1 ∧
    load_team_from_file ((mkManager tC2).save_team_to_file) =
      .error "Invalid age for player." :=
  ⟨rfl, by decide, by decide, rfl⟩
